import Mathlib

/-!
Verification development for the `videoextension` browser-extension media
pipeline.  The TypeScript services are shallowly embedded as executable Lean
functions over explicit state:

* `AudioWorld` / audio operations embed `AudioWebSocketService`
  (src/app/ui/services/audioStreamService.ts, lines 257-405);
* `VideoWorld` / video operations embed `WebSocketService`
  (src/app/ui/services/websocketService.ts);
* `FrameSvc` embeds `FrameCaptureService` (src/app/ui/background.ts);
* `RecState` embeds the `AudioStreamService` MediaRecorder wiring;
* `detectAndCaptureVideoStream` / `detectAndCaptureAudioStream` embed
  `VideoStreamService`.

Browser platform behaviour that the code relies on (WebSocket readyState
transitions, `send` throwing `InvalidStateError` while CONNECTING, close
events still firing on sockets the service has dropped its reference to) is
modelled explicitly and documented at each definition.
-/

/-- Platform WebSocket readyState: CONNECTING, OPEN, CLOSING, CLOSED. -/
inductive ReadyState where
  | connecting
  | opened
  | closing
  | closedSt
deriving DecidableEq, Repr

/-- Control actions that the services serialise as JSON `{"action": ...}`. -/
inductive CAction where
  | start
  | stop
  | stats
deriving DecidableEq, Repr

/-- A payload handed to the underlying socket: a JSON control message or a
binary chunk (identified by a size/tag). -/
inductive Payload where
  | control (a : CAction)
  | binary (size : Nat)
deriving DecidableEq, Repr

/-- Outcome of invoking the platform `WebSocket.send`. -/
inductive SendOutcome where
  | transmitted
  | discarded
  | threw
deriving DecidableEq, Repr

/-- Models the platform `WebSocket.send` (WHATWG HTML): throws
`InvalidStateError` while the socket is CONNECTING, transmits while OPEN,
and silently discards while CLOSING or CLOSED. -/
def socketSend (rs : ReadyState) : SendOutcome :=
  match rs with
  | .connecting => .threw
  | .opened => .transmitted
  | .closing => .discarded
  | .closedSt => .discarded

/-- Models the platform `WebSocket.close()`: moves a CONNECTING or OPEN
socket to CLOSING; a CLOSING or CLOSED socket is unaffected.  The close
event itself is delivered later by the event loop. -/
def socketClose (rs : ReadyState) : ReadyState :=
  match rs with
  | .connecting => .closing
  | .opened => .closing
  | .closing => .closing
  | .closedSt => .closedSt

/-- Shape of the `AudioAnalysisResult` messages parsed from inbound text
frames on the audio channel (src/app/ui/services/audioStreamService.ts,
interface AudioAnalysisResult).  Only the fields the claims touch are
carried; the rest are irrelevant to control flow. -/
structure AudioAnalysisResult where
  status : String
  chunkCount : Option Nat := none
  message : Option String := none
deriving DecidableEq, Repr

/-- The private fields of `AudioWebSocketService`.  `ws` holds the index of
the current socket in the world's socket list (`none` embeds the `null`
reference); `messageCallbackCount` is the length of `messageCallbacks`
(the callbacks themselves are opaque; only how many are invoked is
observable). -/
structure AudioSvc where
  ws : Option Nat
  url : String
  reconnectAttempts : Nat
  reconnectDelay : Nat
  currentAttempt : Nat
  isConnected : Bool
  messageCallbackCount : Nat
deriving DecidableEq, Repr

/-- Optional constructor configuration `AudioWebSocketConfig`. -/
structure AudioWebSocketConfig where
  url : Option String := none
  reconnectAttempts : Option Nat := none
  reconnectDelay : Option Nat := none
deriving DecidableEq, Repr

/-- JavaScript `a || b` on an optional string: `undefined` and the empty
string are falsy, any other string is returned unchanged. -/
def jsOrStr (v : Option String) (d : String) : String :=
  match v with
  | none => d
  | some s => if s = "" then d else s

/-- JavaScript `a || b` on an optional number: `undefined` and `0` are
falsy, any other number is returned unchanged. -/
def jsOrNat (v : Option Nat) (d : Nat) : Nat :=
  match v with
  | none => d
  | some n => if n = 0 then d else n

/-- The `AudioWebSocketService` constructor: each configuration field is
defaulted with `||` (audioStreamService.ts lines 269-273). -/
def mkAudioSvc (config : AudioWebSocketConfig) : AudioSvc :=
  { ws := none
    url := jsOrStr config.url "ws://localhost:8000/api/v1/audio-stream"
    reconnectAttempts := jsOrNat config.reconnectAttempts 3
    reconnectDelay := jsOrNat config.reconnectDelay 2000
    currentAttempt := 0
    isConnected := false
    messageCallbackCount := 0 }

/-- A world for the audio channel: the sockets allocated so far (every one
of them carries the service's handlers, attached at creation inside
`connect`), the service state, and observable logs: payloads actually
transmitted (socket index paired with payload), reconnect delays passed to
`setTimeout` by the close handler, warnings logged by the send guards, and
whether an exception escaped to the caller. -/
structure AudioWorld where
  sockets : List ReadyState
  svc : AudioSvc
  sent : List (Nat × Payload)
  scheduled : List Nat
  warned : Nat
  delivered : List AudioAnalysisResult
  threw : Bool
deriving DecidableEq, Repr

/-- A fresh world holding a newly constructed service and no sockets. -/
def AudioWorld.init (config : AudioWebSocketConfig) : AudioWorld :=
  { sockets := []
    svc := mkAudioSvc config
    sent := []
    scheduled := []
    warned := 0
    delivered := []
    threw := false }

/-- Updates the readyState of socket `i`. -/
def setSocket (l : List ReadyState) (i : Nat) (rs : ReadyState) :
    List ReadyState :=
  l.set i rs

/-- The audio `connect()` (audioStreamService.ts lines 278-330): it
unconditionally constructs a new `WebSocket(this.url)` and installs the
service's handlers on it — there is no already-open check — and stores it
in `this.ws`. -/
def audioConnect (w : AudioWorld) : AudioWorld :=
  { w with
    sockets := w.sockets ++ [ReadyState.connecting]
    svc := { w.svc with ws := some w.sockets.length } }

/-- Event-loop delivery of the platform open event on socket `i`, running
the `onopen` handler that `connect` attached: mark connected and reset
`currentAttempt` to 0.  The event is only plausible on a CONNECTING
socket; otherwise the world is unchanged. -/
def fireOpen (w : AudioWorld) (i : Nat) : AudioWorld :=
  if w.sockets.getD i .closedSt = .connecting then
    { w with
      sockets := setSocket w.sockets i .opened
      svc := { w.svc with isConnected := true, currentAttempt := 0 } }
  else w

/-- Event-loop delivery of the platform close event on socket `i`, running
the `onclose` handler that `connect` attached (audioStreamService.ts lines
309-324): mark disconnected, then — with no check of whether the caller
requested the close — if `currentAttempt < reconnectAttempts`, increment
the attempt counter and `setTimeout` a reconnect after `reconnectDelay`.
The handler fires on any socket that is not already CLOSED, including one
the service nulled its `ws` field for: `disconnect()` never detaches it. -/
def fireClose (w : AudioWorld) (i : Nat) : AudioWorld :=
  if w.sockets.getD i .closedSt = .closedSt then w
  else if w.svc.currentAttempt < w.svc.reconnectAttempts then
    { w with
      sockets := setSocket w.sockets i .closedSt
      svc := { w.svc with
        isConnected := false
        currentAttempt := w.svc.currentAttempt + 1 }
      scheduled := w.scheduled ++ [w.svc.reconnectDelay] }
  else
    { w with
      sockets := setSocket w.sockets i .closedSt
      svc := { w.svc with isConnected := false } }

/-- `sendAudioChunk` (audioStreamService.ts lines 335-343): guarded by the
service's own `isConnected` flag and the `ws` null check — not by the
socket's readyState — then hands the blob to the platform `send`. -/
def sendAudioChunk (w : AudioWorld) (size : Nat) : AudioWorld :=
  match w.svc.ws, w.svc.isConnected with
  | some i, true =>
      match socketSend (w.sockets.getD i .closedSt) with
      | .transmitted => { w with sent := w.sent ++ [(i, .binary size)] }
      | .discarded => w
      | .threw => { w with threw := true }
  | some _, false => { w with warned := w.warned + 1 }
  | none, _ => { w with warned := w.warned + 1 }

/-- `sendControlMessage` (audioStreamService.ts lines 348-356): same guard
as `sendAudioChunk`, then sends the JSON-serialised action. -/
def sendControlMessage (w : AudioWorld) (a : CAction) : AudioWorld :=
  match w.svc.ws, w.svc.isConnected with
  | some i, true =>
      match socketSend (w.sockets.getD i .closedSt) with
      | .transmitted => { w with sent := w.sent ++ [(i, .control a)] }
      | .discarded => w
      | .threw => { w with threw := true }
  | some _, false => { w with warned := w.warned + 1 }
  | none, _ => { w with warned := w.warned + 1 }

/-- The audio `disconnect()` (audioStreamService.ts lines 361-369): if a
socket reference is held, send a stop control message, call the platform
`close()` on it, null the reference and clear `isConnected`.  No flag
records that the close was caller-initiated, and the socket's handlers
stay attached. -/
def audioDisconnect (w : AudioWorld) : AudioWorld :=
  match w.svc.ws with
  | none => w
  | some i =>
      let w1 := sendControlMessage w .stop
      { w1 with
        sockets := setSocket w1.sockets i
          (socketClose (w1.sockets.getD i .closedSt))
        svc := { w1.svc with ws := none, isConnected := false } }

/-- `onMessage` registration (audioStreamService.ts lines 374-376): pushes
one more callback onto the fan-out list. -/
def audioOnMessage (w : AudioWorld) : AudioWorld :=
  { w with svc := { w.svc with
      messageCallbackCount := w.svc.messageCallbackCount + 1 } }

/-- Event-loop delivery of an inbound text frame on the audio channel,
running the `onmessage` handler (audioStreamService.ts lines 292-300):
`JSON.parse` the data inside a try/catch; on success invoke every
registered callback with the parsed value, on failure log and fall
through.  `parse` models `JSON.parse` composed with the cast: `none` is a
parse failure.  The socket set and service state are untouched either
way. -/
def fireAudioMessage (parse : String → Option AudioAnalysisResult)
    (w : AudioWorld) (data : String) : AudioWorld :=
  match parse data with
  | some m =>
      { w with delivered :=
          w.delivered ++ List.replicate w.svc.messageCallbackCount m }
  | none => w

/-- Shape of the `WebSocketMessage` records parsed from inbound text frames
on the video channel (src/app/ui/services/websocketService.ts).  Only the
declared optional fields are carried. -/
structure WebSocketMessage where
  status : Option String := none
  action : Option CAction := none
  frameCount : Option Nat := none
  message : Option String := none
deriving DecidableEq, Repr

/-- The private fields of the video `WebSocketService`: the socket
reference and whether a message handler has been set (single slot). -/
structure VideoSvc where
  ws : Option Nat
  url : String
  messageHandlerSet : Bool
deriving DecidableEq, Repr

/-- A world for the video channel, with the same observables as
`AudioWorld`. -/
structure VideoWorld where
  sockets : List ReadyState
  svc : VideoSvc
  sent : List (Nat × Payload)
  warned : Nat
  delivered : List WebSocketMessage
  threw : Bool
deriving DecidableEq, Repr

/-- A fresh world holding `new WebSocketService(url)` and no sockets. -/
def VideoWorld.init (url : String) : VideoWorld :=
  { sockets := []
    svc := { ws := none, url := url, messageHandlerSet := false }
    sent := []
    warned := 0
    delivered := []
    threw := false }

/-- The readyState of the socket the video service currently references
(`closedSt` when the reference is null, matching the optional-chaining
comparison `this.ws?.readyState === WebSocket.OPEN` being false then). -/
def VideoWorld.curState (w : VideoWorld) : ReadyState :=
  match w.svc.ws with
  | none => .closedSt
  | some i => w.sockets.getD i .closedSt

/-- The video `connect()` (websocketService.ts lines 33-77): if
`this.ws?.readyState === WebSocket.OPEN` it returns a resolved promise and
touches nothing; otherwise it constructs a new `WebSocket(this.url)`,
installs the handlers and stores it. -/
def videoConnect (w : VideoWorld) : VideoWorld :=
  if w.curState = .opened then w
  else
    { w with
      sockets := w.sockets ++ [ReadyState.connecting]
      svc := { w.svc with ws := some w.sockets.length } }

/-- The video `send` (websocketService.ts lines 95-106): if the socket is
null or its readyState is not OPEN, log a warning and return; otherwise
send the blob directly or the JSON-serialised message. -/
def videoSend (w : VideoWorld) (p : Payload) : VideoWorld :=
  match w.svc.ws with
  | none => { w with warned := w.warned + 1 }
  | some i =>
      if w.sockets.getD i .closedSt ≠ .opened then
        { w with warned := w.warned + 1 }
      else
        match socketSend (w.sockets.getD i .closedSt) with
        | .transmitted => { w with sent := w.sent ++ [(i, p)] }
        | .discarded => w
        | .threw => { w with threw := true }

/-- The video `disconnect()` (websocketService.ts lines 82-90): if a socket
reference is held and it is OPEN, send `{action: "stop"}` and call the
platform `close()`; in all cases null the reference. -/
def videoDisconnect (w : VideoWorld) : VideoWorld :=
  match w.svc.ws with
  | none => w
  | some i =>
      let w1 :=
        if w.sockets.getD i .closedSt = .opened then
          let w0 := videoSend w (.control .stop)
          let rs := socketClose (w0.sockets.getD i .closedSt)
          { w0 with sockets := setSocket w0.sockets i rs }
        else w
      { w1 with svc := { w1.svc with ws := none } }

/-- `onMessage` registration for the video channel: a single-slot handler
field. -/
def videoOnMessage (w : VideoWorld) : VideoWorld :=
  { w with svc := { w.svc with messageHandlerSet := true } }

/-- Event-loop delivery of an inbound text frame on the video channel,
running the `onmessage` handler (websocketService.ts lines 48-57):
`JSON.parse` inside a try/catch; on success call the handler if one is
registered; on failure log the error and fall through.  Sockets and
service state are untouched either way. -/
def fireVideoMessage (parse : String → Option WebSocketMessage)
    (w : VideoWorld) (data : String) : VideoWorld :=
  match parse data with
  | some m =>
      if w.svc.messageHandlerSet then
        { w with delivered := w.delivered ++ [m] }
      else w
  | none => w

/-- The private fields of `FrameCaptureService` (src/app/ui/background.ts
lines 29-40).  `canvas` carries the offscreen canvas's current width and
height once `initialize` has created it (a fresh canvas defaults to
300 x 150); the attached video element and WebSocket service are tracked as
presence flags, their per-tick readings arriving through `TickEnv`. -/
structure FrameSvc where
  intervalId : Option Nat
  videoAttached : Bool
  wsAttached : Bool
  canvas : Option (Nat × Nat)
  frameCount : Nat
deriving DecidableEq, Repr

/-- A freshly constructed `FrameCaptureService`. -/
def FrameSvc.init : FrameSvc :=
  { intervalId := none
    videoAttached := false
    wsAttached := false
    canvas := none
    frameCount := 0 }

/-- `initialize` (background.ts lines 45-52): attach the video element and
WebSocket service and create a fresh offscreen canvas. -/
def FrameSvc.initCapture (s : FrameSvc) : FrameSvc :=
  { s with
    videoAttached := true
    wsAttached := true
    canvas := some (300, 150) }

/-- What the environment reports during one timer period: the source
video's intrinsic dimensions, whether the WebSocket service is connected
at capture time and again inside the async `toBlob` callback, whether
`getContext("2d")` yields a context, and whether `toBlob` produces a
blob. -/
structure TickEnv where
  videoWidth : Nat
  videoHeight : Nat
  wsConnectedAtTick : Bool
  ctxOk : Bool
  blobOk : Bool
  wsConnectedAtBlob : Bool
deriving DecidableEq, Repr

/-- `captureAndSendFrame` (background.ts lines 95-136), one timer period:
bail out silently when the pieces are missing or the service disconnected;
bail out silently when the source reports zero intrinsic width or height;
otherwise set the canvas's width and height to the source's current
dimensions, draw, and in the `toBlob` callback send the blob and increment
`frameCount` when a blob was produced and the service is still connected.
Returns the updated state and the emitted chunk's canvas dimensions, or
`none` when no chunk was emitted.  Every exit path is a plain return: the
timer callback never throws. -/
def captureAndSendFrame (s : FrameSvc) (env : TickEnv) :
    FrameSvc × Option (Nat × Nat) :=
  match s.canvas with
  | none => (s, none)
  | some _ =>
      if ¬s.videoAttached ∨ ¬s.wsAttached ∨ ¬env.wsConnectedAtTick then
        (s, none)
      else if env.videoWidth = 0 ∨ env.videoHeight = 0 then
        (s, none)
      else
        let s1 := { s with canvas := some (env.videoWidth, env.videoHeight) }
        if ¬env.ctxOk then (s1, none)
        else if env.blobOk ∧ env.wsConnectedAtBlob then
          ({ s1 with frameCount := s1.frameCount + 1 },
            some (env.videoWidth, env.videoHeight))
        else (s1, none)

/-- `start` (background.ts lines 57-76): an early return when a timer is
already running; a thrown `Error` when the video element or WebSocket
service is missing or the service is not connected; otherwise send
`{action: "start"}` and store the id of a fresh interval timer. -/
def FrameSvc.start (s : FrameSvc) (wsConnected : Bool) (tid : Nat) :
    Except String FrameSvc :=
  match s.intervalId with
  | some _ => .ok s
  | none =>
      if ¬s.videoAttached ∨ ¬s.wsAttached ∨ ¬wsConnected then
        .error "Video element and WebSocket service must be initialized and connected"
      else .ok { s with intervalId := some tid }

/-- `stop` (background.ts lines 81-90): clear the timer if one is running
and send `{action: "stop"}` when a service is attached.  `frameCount` is
not touched. -/
def FrameSvc.stop (s : FrameSvc) : FrameSvc :=
  { s with intervalId := none }

/-- `resetFrameCount` (background.ts lines 148-150). -/
def FrameSvc.resetFrameCount (s : FrameSvc) : FrameSvc :=
  { s with frameCount := 0 }

/-- The Sidebar's `handleStartStreaming` restart sequence
(src/unnamed/part_001 lines 239-277), after the WebSocket connect step:
`initialize`, then `resetFrameCount`, then `start`. -/
def handleStartStreaming (s : FrameSvc) (wsConnected : Bool) (tid : Nat) :
    Except String FrameSvc :=
  FrameSvc.start (FrameSvc.resetFrameCount (FrameSvc.initCapture s))
    wsConnected tid

/-- The private fields of `AudioStreamService`
(src/app/ui/services/audioStreamService.ts lines 25-31) that the recorder
wiring touches: whether a media stream was acquired, the timeslices of the
`MediaRecorder` instances created so far, the recording flag, whether an
`onData` callback is registered, and the observable fate of data events:
chunk sizes handed to the callback versus silently dropped. -/
structure RecState where
  hasMediaStream : Bool
  recorders : List Nat
  isRecording : Bool
  hasDataCallback : Bool
  deliveredChunks : List Nat
  droppedChunks : List Nat
deriving DecidableEq, Repr

/-- `setupMediaRecorder` (audioStreamService.ts lines 113-144): throw when
no media stream is available; otherwise create a `MediaRecorder`, install
its handlers, start it with a 1000 ms timeslice and set the recording
flag.  Nothing checks whether an `onData` callback was registered. -/
def setupMediaRecorder (s : RecState) : Except String RecState :=
  if ¬s.hasMediaStream then .error "No media stream available"
  else .ok { s with recorders := s.recorders ++ [1000], isRecording := true }

/-- The recorder's `ondataavailable` handler (audioStreamService.ts lines
129-133): invoke the registered callback only when the chunk is non-empty
and a callback exists; otherwise the chunk is dropped with no log and no
error. -/
def fireDataAvailable (s : RecState) (size : Nat) : RecState :=
  if 0 < size ∧ s.hasDataCallback then
    { s with deliveredChunks := s.deliveredChunks ++ [size] }
  else
    { s with droppedChunks := s.droppedChunks ++ [size] }

/-- One media element as the stream-discovery code observes it:
`srcObjectStream` is `some id` when `element.srcObject instanceof
MediaStream`; `hasCaptureStream` states that a `captureStream` member
exists and is a function; `captureStreamResult` is what calling it does —
`some stream` when the call returns, `none` when it throws. -/
structure MediaElem where
  srcObjectStream : Option Nat
  hasCaptureStream : Bool
  captureStreamResult : Option Nat
deriving DecidableEq, Repr

/-- Result record `StreamCaptureResult` (src/unnamed/part_000 lines 5-9). -/
structure StreamCaptureResult where
  success : Bool
  stream : Option Nat
  error : Option String := none
deriving DecidableEq, Repr

/-- The video discovery loop (src/unnamed/part_000 lines 29-50): walk the
elements in document order; take the first live `srcObject`; otherwise, if
the element has a guarded `captureStream`, call it inside try/catch —
a returned stream is taken, a throw is logged and the walk continues. -/
def findVideoStream (elems : List MediaElem) : Option Nat :=
  match elems with
  | [] => none
  | e :: rest =>
      match e.srcObjectStream with
      | some sid => some sid
      | none =>
          if e.hasCaptureStream then
            match e.captureStreamResult with
            | some sid => some sid
            | none => findVideoStream rest
          else findVideoStream rest

/-- `detectAndCaptureVideoStream` (src/unnamed/part_000 lines 15-66):
no elements is one typed failure, an unproductive walk the other, and the
first captured stream a success. -/
def detectAndCaptureVideoStream (elems : List MediaElem) :
    StreamCaptureResult :=
  if elems.isEmpty then
    { success := false, stream := none,
      error := some "No video elements found on this page" }
  else
    match findVideoStream elems with
    | some sid => { success := true, stream := some sid }
    | none =>
        { success := false, stream := none,
          error := some "Could not detect active video stream. Make sure a video call is playing." }

/-- The audio discovery loop (src/unnamed/part_000 lines 83-88): only a
live `srcObject` is considered; there is no `captureStream` branch. -/
def findAudioStream (elems : List MediaElem) : Option Nat :=
  match elems with
  | [] => none
  | e :: rest =>
      match e.srcObjectStream with
      | some sid => some sid
      | none => findAudioStream rest

/-- `detectAndCaptureAudioStream` (src/unnamed/part_000 lines 71-103). -/
def detectAndCaptureAudioStream (elems : List MediaElem) :
    StreamCaptureResult :=
  if elems.isEmpty then
    { success := false, stream := none,
      error := some "No audio elements found on this page" }
  else
    match findAudioStream elems with
    | some sid => { success := true, stream := some sid }
    | none =>
        { success := false, stream := none,
          error := some "Could not detect active audio stream" }

/-- Event-loop delivery of the platform open event on video socket `i`; the
`onopen` handler installed by the video `connect` only logs and resolves
the connect promise, so the service state is untouched. -/
def fireVideoOpen (w : VideoWorld) (i : Nat) : VideoWorld :=
  if w.sockets.getD i .closedSt = .connecting then
    { w with sockets := setSocket w.sockets i .opened }
  else w

/-- C1 counterexample: on a freshly connected and opened audio channel, an
explicit caller-initiated `disconnect()` schedules nothing by itself, but
the close event it provokes still runs the reconnect logic — the old
socket's `onclose` handler is never detached and no flag records that the
caller requested the close — so a reconnect IS scheduled after an explicit
`disconnect()`, contradicting the claim. -/
theorem c1_reconnect_scheduled_after_explicit_disconnect :
    (audioDisconnect (fireOpen (audioConnect (AudioWorld.init {})) 0)).scheduled
      = [] ∧
    (fireClose (audioDisconnect
        (fireOpen (audioConnect (AudioWorld.init {})) 0)) 0).scheduled
      = [2000] := by
  decide

/-- C1 amended: the audio close handler does not distinguish
caller-initiated closes from unexpected ones; after ANY close event —
including the one provoked by `disconnect()` — a reconnect is scheduled
with the configured delay exactly when `currentAttempt <
reconnectAttempts` (and the event is plausible, i.e. the socket is not
already closed). -/
theorem c1_amended_close_handler_ignores_disconnect_origin :
    ∀ (w : AudioWorld) (i : Nat),
      (fireClose w i).scheduled =
        if w.sockets.getD i .closedSt = .closedSt then w.scheduled
        else if w.svc.currentAttempt < w.svc.reconnectAttempts then
          w.scheduled ++ [w.svc.reconnectDelay]
        else w.scheduled := by
  intro w i
  unfold fireClose
  by_cases h1 : w.sockets.getD i .closedSt = .closedSt
  · rw [if_pos h1, if_pos h1]
  · rw [if_neg h1, if_neg h1]
    by_cases h2 : w.svc.currentAttempt < w.svc.reconnectAttempts
    · rw [if_pos h2, if_pos h2]
    · rw [if_neg h2, if_neg h2]

/-- C2 counterexample: the audio guard tests the service's `isConnected`
flag, not the socket's readyState.  Opening a channel and then calling
`connect()` a second time (the audio `connect` has no already-open check)
leaves `isConnected = true` while the freshly constructed socket is still
CONNECTING; `sendAudioChunk` then passes its guard and calls the platform
`send` on a non-open socket, which throws `InvalidStateError` — the claim
promised it would return without throwing and transmit nothing. -/
theorem c2_chunk_sent_on_connecting_socket_throws :
    ((audioConnect (fireOpen (audioConnect (AudioWorld.init {})) 0)).sockets.getD
        1 .closedSt ≠ .opened) ∧
    (sendAudioChunk
        (audioConnect (fireOpen (audioConnect (AudioWorld.init {})) 0)) 42).threw
      = true ∧
    (sendAudioChunk
        (audioConnect (fireOpen (audioConnect (AudioWorld.init {})) 0)) 42).sent
      = (audioConnect (fireOpen (audioConnect (AudioWorld.init {})) 0)).sent := by
  decide

/-- C2 amended: the video `send` warns and returns, transmitting nothing,
whenever the socket is null or not OPEN; the audio `sendAudioChunk` warns
and returns whenever its own `isConnected` flag is false or the socket
reference is null, but when the flag is stale — `isConnected = true` with
the referenced socket still CONNECTING, reachable via a second
`connect()` — it calls the platform `send` and an `InvalidStateError`
escapes. -/
theorem c2_amended_send_guards :
    (∀ (w : VideoWorld) (p : Payload), w.curState ≠ .opened →
      videoSend w p = { w with warned := w.warned + 1 }) ∧
    (∀ (w : AudioWorld) (n : Nat),
      w.svc.isConnected = false ∨ w.svc.ws = none →
      sendAudioChunk w n = { w with warned := w.warned + 1 }) ∧
    (∀ (w : AudioWorld) (n i : Nat),
      w.svc.ws = some i → w.svc.isConnected = true →
      w.sockets.getD i .closedSt = .connecting →
      sendAudioChunk w n = { w with threw := true }) := by
  refine ⟨?_, ?_, ?_⟩
  · intro w p h
    unfold videoSend
    match hw : w.svc.ws with
    | none => rfl
    | some i =>
        have hcur : w.curState = w.sockets.getD i .closedSt := by
          unfold VideoWorld.curState
          rw [hw]
        have hne : w.sockets.getD i .closedSt ≠ .opened := fun hc =>
          h (hcur.trans hc)
        dsimp only
        rw [if_pos hne]
  · intro w n h
    unfold sendAudioChunk
    match hw : w.svc.ws, hc : w.svc.isConnected with
    | none, _ => rfl
    | some i, false => rfl
    | some i, true =>
        rcases h with h | h
        · rw [hc] at h; cases h
        · rw [hw] at h; cases h
  · intro w n i hw hc hrs
    simp only [sendAudioChunk, hw, hc]
    rw [hrs]
    rfl

/-- C2 witness: concrete instances for each guarded conjunct — a
never-connected video channel, a never-connected audio channel, and the
stale-flag audio world of the counterexample trace. -/
theorem c2_amended_send_guards_witness :
    (VideoWorld.init "ws://localhost:8000/api/v1/video-stream").curState
        ≠ .opened ∧
    videoSend (VideoWorld.init "ws://localhost:8000/api/v1/video-stream")
        (.binary 7)
      = { VideoWorld.init "ws://localhost:8000/api/v1/video-stream" with
            warned := 1 } ∧
    sendAudioChunk (AudioWorld.init {}) 7
      = { AudioWorld.init {} with warned := 1 } := by
  refine ⟨by decide, ?_, ?_⟩
  · exact c2_amended_send_guards.1
      (VideoWorld.init "ws://localhost:8000/api/v1/video-stream")
      (.binary 7) (by decide)
  · exact c2_amended_send_guards.2.1 (AudioWorld.init {}) 7 (Or.inr rfl)

/-- C3 counterexample: after the audio channel is connected and open,
calling `connect()` again constructs a second underlying socket — the
audio `connect` has no already-open check, contradicting the claim for
the audio variant. -/
theorem c3_audio_connect_constructs_second_socket :
    (fireOpen (audioConnect (AudioWorld.init {})) 0).svc.isConnected = true ∧
    (fireOpen (audioConnect (AudioWorld.init {})) 0).sockets
      = [ReadyState.opened] ∧
    (audioConnect (fireOpen (audioConnect (AudioWorld.init {})) 0)).sockets.length
      = 2 := by
  decide

/-- C3 amended: only the video `connect()` is idempotent on an open
channel — it returns a resolved promise and changes nothing; the audio
`connect()` unconditionally allocates a new underlying socket and stores
it, whatever the current state. -/
theorem c3_amended_connect_idempotence_video_only :
    (∀ w : VideoWorld, w.curState = .opened → videoConnect w = w) ∧
    (∀ w : AudioWorld,
      (audioConnect w).sockets.length = w.sockets.length + 1 ∧
      (audioConnect w).svc.ws = some w.sockets.length) := by
  constructor
  · intro w h
    unfold videoConnect
    rw [h]
    rfl
  · intro w
    constructor
    · simp [audioConnect]
    · rfl

/-- C3 witness: a concrete open video channel on which `connect()` is a
no-op. -/
theorem c3_amended_connect_idempotence_video_only_witness :
    (fireVideoOpen (videoConnect (VideoWorld.init "ws://h")) 0).curState
        = .opened ∧
    videoConnect (fireVideoOpen (videoConnect (VideoWorld.init "ws://h")) 0)
      = fireVideoOpen (videoConnect (VideoWorld.init "ws://h")) 0 := by
  refine ⟨by decide, ?_⟩
  exact c3_amended_connect_idempotence_video_only.1
    (fireVideoOpen (videoConnect (VideoWorld.init "ws://h")) 0) (by decide)

/-- C4: the audio reconnection policy.  A successful open resets the
attempt counter to zero; a close event with attempts remaining appends
exactly one scheduled reconnect carrying the configured delay and
increments the counter; a close event with the budget exhausted schedules
nothing.  Concretely, with `reconnectAttempts = 3` and `reconnectDelay =
500`, three consecutive unexpected closes schedule exactly three
reconnects of delay 500 and a fourth close schedules none. -/
theorem c4_reconnect_policy :
    (∀ (w : AudioWorld) (i : Nat),
      w.sockets.getD i .closedSt = .connecting →
      (fireOpen w i).svc.currentAttempt = 0) ∧
    (∀ (w : AudioWorld) (i : Nat),
      w.sockets.getD i .closedSt ≠ .closedSt →
      w.svc.currentAttempt < w.svc.reconnectAttempts →
      (fireClose w i).scheduled = w.scheduled ++ [w.svc.reconnectDelay] ∧
      (fireClose w i).svc.currentAttempt = w.svc.currentAttempt + 1) ∧
    (∀ (w : AudioWorld) (i : Nat),
      ¬ w.svc.currentAttempt < w.svc.reconnectAttempts →
      (fireClose w i).scheduled = w.scheduled) ∧
    (let cfg : AudioWebSocketConfig :=
      { reconnectAttempts := some 3, reconnectDelay := some 500 }
     let t3 := fireClose (fireOpen (audioConnect (AudioWorld.init cfg)) 0) 0
     let t5 := fireClose (audioConnect t3) 1
     let t7 := fireClose (audioConnect t5) 2
     let t9 := fireClose (audioConnect t7) 3
     t7.scheduled = [500, 500, 500] ∧ t9.scheduled = [500, 500, 500]) := by
  refine ⟨?_, ?_, ?_, by decide⟩
  · intro w i h
    unfold fireOpen
    rw [if_pos h]
  · intro w i h1 h2
    unfold fireClose
    rw [if_neg h1, if_pos h2]
    exact ⟨rfl, rfl⟩
  · intro w i h2
    unfold fireClose
    by_cases h1 : w.sockets.getD i .closedSt = .closedSt
    · rw [if_pos h1]
    · rw [if_neg h1, if_neg h2]

/-- C4 witness: the policy applied on the concrete first-close world of
the scenario — the open event resets the counter and the first close
schedules one reconnect of delay 500. -/
theorem c4_reconnect_policy_witness :
    (fireOpen (audioConnect (AudioWorld.init
        { reconnectAttempts := some 3, reconnectDelay := some 500 }))
        0).svc.currentAttempt = 0 ∧
    (fireClose (fireOpen (audioConnect (AudioWorld.init
        { reconnectAttempts := some 3, reconnectDelay := some 500 })) 0)
        0).scheduled = [500] := by
  constructor
  · exact c4_reconnect_policy.1
      (audioConnect (AudioWorld.init
        { reconnectAttempts := some 3, reconnectDelay := some 500 }))
      0 (by decide)
  · have h := (c4_reconnect_policy.2.1
      (fireOpen (audioConnect (AudioWorld.init
        { reconnectAttempts := some 3, reconnectDelay := some 500 })) 0)
      0 (by decide) (by decide)).1
    rw [h]
    decide

/-- C5: on both channel variants a text frame whose JSON parse fails is
caught and logged with no observable effect: no handler runs, nothing is
delivered, no exception escapes, the sockets (hence the connection) are
untouched — the handler leaves the whole world equal.  A subsequent
well-formed frame is still delivered to the registered handler (video:
the single slot; audio: once per registered callback). -/
theorem c5_malformed_frame_is_dropped_channel_survives :
    (∀ (parse : String → Option WebSocketMessage) (w : VideoWorld)
        (d : String), parse d = none → fireVideoMessage parse w d = w) ∧
    (∀ (parse : String → Option AudioAnalysisResult) (w : AudioWorld)
        (d : String), parse d = none → fireAudioMessage parse w d = w) ∧
    (∀ (parse : String → Option WebSocketMessage) (w : VideoWorld)
        (bad good : String) (m : WebSocketMessage),
      parse bad = none → parse good = some m →
      w.svc.messageHandlerSet = true →
      (fireVideoMessage parse (fireVideoMessage parse w bad) good).delivered
        = w.delivered ++ [m]) ∧
    (∀ (parse : String → Option AudioAnalysisResult) (w : AudioWorld)
        (bad good : String) (m : AudioAnalysisResult),
      parse bad = none → parse good = some m →
      (fireAudioMessage parse (fireAudioMessage parse w bad) good).delivered
        = w.delivered ++ List.replicate w.svc.messageCallbackCount m) := by
  refine ⟨?_, ?_, ?_, ?_⟩
  · intro parse w d h
    unfold fireVideoMessage
    rw [h]
  · intro parse w d h
    unfold fireAudioMessage
    rw [h]
  · intro parse w bad good m hb hg hset
    unfold fireVideoMessage
    rw [hb, hg, hset]
    simp
  · intro parse w bad good m hb hg
    unfold fireAudioMessage
    rw [hb, hg]

/-- C5 witness: a concrete parse model on which the frame "not-json"
fails to parse and is dropped on both channels while the frame "ok"
parses and is delivered afterwards. -/
theorem c5_malformed_frame_is_dropped_channel_survives_witness :
    (fun s => if s = "ok" then some ({ status := some "connected" } :
          WebSocketMessage) else none) "not-json" = none ∧
    fireVideoMessage
        (fun s => if s = "ok" then some ({ status := some "connected" } :
          WebSocketMessage) else none)
        (videoOnMessage (VideoWorld.init "ws://h")) "not-json"
      = videoOnMessage (VideoWorld.init "ws://h") ∧
    (fireVideoMessage
        (fun s => if s = "ok" then some ({ status := some "connected" } :
          WebSocketMessage) else none)
        (fireVideoMessage
          (fun s => if s = "ok" then some ({ status := some "connected" } :
            WebSocketMessage) else none)
          (videoOnMessage (VideoWorld.init "ws://h")) "not-json")
        "ok").delivered
      = [{ status := some "connected" }] ∧
    (fireAudioMessage
        (fun s => if s = "ok" then some ({ status := "alert" } :
          AudioAnalysisResult) else none)
        (fireAudioMessage
          (fun s => if s = "ok" then some ({ status := "alert" } :
            AudioAnalysisResult) else none)
          (audioOnMessage (AudioWorld.init {})) "not-json")
        "ok").delivered
      = [{ status := "alert" }] := by
  refine ⟨by decide, ?_, ?_, ?_⟩
  · exact c5_malformed_frame_is_dropped_channel_survives.1
      (fun s => if s = "ok" then some ({ status := some "connected" } :
        WebSocketMessage) else none)
      (videoOnMessage (VideoWorld.init "ws://h")) "not-json" (by decide)
  · have h := c5_malformed_frame_is_dropped_channel_survives.2.2.1
      (fun s => if s = "ok" then some ({ status := some "connected" } :
        WebSocketMessage) else none)
      (videoOnMessage (VideoWorld.init "ws://h")) "not-json" "ok"
      { status := some "connected" } (by decide) (by decide) rfl
    rw [h]
    decide
  · have h := c5_malformed_frame_is_dropped_channel_survives.2.2.2
      (fun s => if s = "ok" then some ({ status := "alert" } :
        AudioAnalysisResult) else none)
      (audioOnMessage (AudioWorld.init {})) "not-json" "ok"
      { status := "alert" } (by decide) (by decide)
    rw [h]
    decide

/-- C6 counterexample: an element with no live `srcObject` whose
`captureStream` capability exists and returns stream 7.  The video walker
captures it via `captureStream`, but the audio walker — which the claim
says attempts `captureStream` the same way — returns the no-active-stream
failure: the audio discovery never attempts `captureStream`. -/
theorem c6_audio_discovery_never_tries_captureStream :
    detectAndCaptureVideoStream
        [{ srcObjectStream := none, hasCaptureStream := true,
           captureStreamResult := some 7 }]
      = { success := true, stream := some 7 } ∧
    detectAndCaptureAudioStream
        [{ srcObjectStream := none, hasCaptureStream := true,
           captureStreamResult := some 7 }]
      = { success := false, stream := none,
          error := some "Could not detect active audio stream" } := by
  constructor
  · rfl
  · rfl

/-- C6 amended: the video discovery behaves exactly as claimed — document
order, `srcObject` preferred, guarded `captureStream` fallback whose throw
is caught so the walk continues, first match returned, and typed failures
distinguishing the no-elements case from the no-active-stream case, with
no retries and no escaping exception.  The audio discovery shares the
document-order walk, the `srcObject` preference and the two typed
failures, but considers only `srcObject`: it never attempts
`captureStream`. -/
theorem c6_amended_stream_discovery :
    (∀ (e : MediaElem) (rest : List MediaElem) (sid : Nat),
      e.srcObjectStream = some sid →
      findVideoStream (e :: rest) = some sid ∧
      findAudioStream (e :: rest) = some sid) ∧
    (∀ (e : MediaElem) (rest : List MediaElem) (sid : Nat),
      e.srcObjectStream = none → e.hasCaptureStream = true →
      e.captureStreamResult = some sid →
      findVideoStream (e :: rest) = some sid) ∧
    (∀ (e : MediaElem) (rest : List MediaElem),
      e.srcObjectStream = none →
      e.hasCaptureStream = false ∨ e.captureStreamResult = none →
      findVideoStream (e :: rest) = findVideoStream rest) ∧
    (∀ (e : MediaElem) (rest : List MediaElem),
      e.srcObjectStream = none →
      findAudioStream (e :: rest) = findAudioStream rest) ∧
    (detectAndCaptureVideoStream [] =
      { success := false, stream := none,
        error := some "No video elements found on this page" }) ∧
    (detectAndCaptureAudioStream [] =
      { success := false, stream := none,
        error := some "No audio elements found on this page" }) ∧
    (∀ (elems : List MediaElem) (sid : Nat),
      findVideoStream elems = some sid →
      detectAndCaptureVideoStream elems =
        { success := true, stream := some sid }) ∧
    (∀ (elems : List MediaElem),
      ¬ elems.isEmpty → findVideoStream elems = none →
      detectAndCaptureVideoStream elems =
        { success := false, stream := none,
          error := some "Could not detect active video stream. Make sure a video call is playing." }) ∧
    (∀ (elems : List MediaElem) (sid : Nat),
      findAudioStream elems = some sid →
      detectAndCaptureAudioStream elems =
        { success := true, stream := some sid }) ∧
    (∀ (elems : List MediaElem),
      ¬ elems.isEmpty → findAudioStream elems = none →
      detectAndCaptureAudioStream elems =
        { success := false, stream := none,
          error := some "Could not detect active audio stream" }) := by
  refine ⟨?_, ?_, ?_, ?_, rfl, rfl, ?_, ?_, ?_, ?_⟩
  · intro e rest sid h
    constructor
    · unfold findVideoStream
      rw [h]
    · unfold findAudioStream
      rw [h]
  · intro e rest sid h1 h2 h3
    unfold findVideoStream
    rw [h1, h2, h3]
    rfl
  · intro e rest h1 h2
    conv_lhs => unfold findVideoStream
    rw [h1]
    rcases h2 with h2 | h2
    · rw [h2]
      rfl
    · rw [h2]
      cases he : e.hasCaptureStream <;> rfl
  · intro e rest h
    conv_lhs => unfold findAudioStream
    rw [h]
  · intro elems sid h
    unfold detectAndCaptureVideoStream
    have hne : elems.isEmpty = false := by
      cases elems
      · cases h
      · rfl
    rw [hne, h]
    rfl
  · intro elems h1 h2
    unfold detectAndCaptureVideoStream
    rw [Bool.not_eq_true] at h1
    rw [h1, h2]
    rfl
  · intro elems sid h
    unfold detectAndCaptureAudioStream
    have hne : elems.isEmpty = false := by
      cases elems
      · cases h
      · rfl
    rw [hne, h]
    rfl
  · intro elems h1 h2
    unfold detectAndCaptureAudioStream
    rw [Bool.not_eq_true] at h1
    rw [h1, h2]
    rfl

/-- C6 witness: the amended discovery laws applied on concrete element
lists — a live `srcObject` wins on both walkers, a throwing
`captureStream` is skipped, and an unproductive walk yields the
no-active-stream failure. -/
theorem c6_amended_stream_discovery_witness :
    findVideoStream
        [{ srcObjectStream := some 4, hasCaptureStream := false,
           captureStreamResult := none }]
      = some 4 ∧
    findVideoStream
        [{ srcObjectStream := none, hasCaptureStream := true,
           captureStreamResult := none },
         { srcObjectStream := some 9, hasCaptureStream := false,
           captureStreamResult := none }]
      = findVideoStream
        [{ srcObjectStream := some 9, hasCaptureStream := false,
           captureStreamResult := none }] ∧
    detectAndCaptureAudioStream
        [{ srcObjectStream := none, hasCaptureStream := true,
           captureStreamResult := none }]
      = { success := false, stream := none,
          error := some "Could not detect active audio stream" } := by
  refine ⟨?_, ?_, ?_⟩
  · exact (c6_amended_stream_discovery.1
      { srcObjectStream := some 4, hasCaptureStream := false,
        captureStreamResult := none } [] 4 rfl).1
  · exact c6_amended_stream_discovery.2.2.1
      { srcObjectStream := none, hasCaptureStream := true,
        captureStreamResult := none }
      [{ srcObjectStream := some 9, hasCaptureStream := false,
         captureStreamResult := none }] rfl (Or.inr rfl)
  · exact c6_amended_stream_discovery.2.2.2.2.2.2.2.2.2
      [{ srcObjectStream := none, hasCaptureStream := true,
         captureStreamResult := none }] (by decide) rfl

/-- C7: one frame-mode timer period.  Whenever the source reports zero
intrinsic width or height the period emits no chunk and raises no error —
the state, including the counter and the canvas, is returned unchanged.
Whenever a chunk is emitted, the offscreen canvas's width and height were
set to the source's current intrinsic dimensions before drawing, and they
equal the emitted chunk's dimensions afterwards. -/
theorem c7_zero_dims_skip_canvas_tracks_source :
    (∀ (s : FrameSvc) (env : TickEnv),
      env.videoWidth = 0 ∨ env.videoHeight = 0 →
      captureAndSendFrame s env = (s, none)) ∧
    (∀ (s : FrameSvc) (env : TickEnv) (s' : FrameSvc) (c : Nat × Nat),
      captureAndSendFrame s env = (s', some c) →
      c = (env.videoWidth, env.videoHeight) ∧
      s'.canvas = some (env.videoWidth, env.videoHeight)) := by
  constructor
  · intro s env h
    unfold captureAndSendFrame
    cases hc : s.canvas with
    | none => rfl
    | some dims =>
        by_cases hg : ¬s.videoAttached ∨ ¬s.wsAttached ∨ ¬env.wsConnectedAtTick
        · rw [if_pos hg]
        · rw [if_neg hg, if_pos h]
  · intro s env s' c h
    unfold captureAndSendFrame at h
    cases hc : s.canvas with
    | none =>
        rw [hc] at h
        cases h
    | some dims =>
        rw [hc] at h
        by_cases hg : ¬s.videoAttached ∨ ¬s.wsAttached ∨ ¬env.wsConnectedAtTick
        · rw [if_pos hg] at h
          cases h
        · rw [if_neg hg] at h
          by_cases hz : env.videoWidth = 0 ∨ env.videoHeight = 0
          · rw [if_pos hz] at h
            cases h
          · rw [if_neg hz] at h
            by_cases hctx : ¬env.ctxOk
            · rw [if_pos hctx] at h
              cases h
            · rw [if_neg hctx] at h
              by_cases hb : env.blobOk ∧ env.wsConnectedAtBlob
              · rw [if_pos hb] at h
                injection h with h1 h2
                injection h2 with h2
                exact ⟨h2.symm, by rw [← h1]⟩
              · rw [if_neg hb] at h
                cases h

/-- C7 witness: a period with a zero-width source emits nothing and leaves
the state unchanged; a period with a 640 x 480 source on a fully wired
service emits a 640 x 480 chunk and leaves the canvas at 640 x 480. -/
theorem c7_zero_dims_skip_canvas_tracks_source_witness :
    captureAndSendFrame (FrameSvc.initCapture FrameSvc.init)
        { videoWidth := 0, videoHeight := 480, wsConnectedAtTick := true,
          ctxOk := true, blobOk := true, wsConnectedAtBlob := true }
      = (FrameSvc.initCapture FrameSvc.init, none) ∧
    ((captureAndSendFrame (FrameSvc.initCapture FrameSvc.init)
        { videoWidth := 640, videoHeight := 480, wsConnectedAtTick := true,
          ctxOk := true, blobOk := true, wsConnectedAtBlob := true }).2
      = some (640, 480) ∧
    (captureAndSendFrame (FrameSvc.initCapture FrameSvc.init)
        { videoWidth := 640, videoHeight := 480, wsConnectedAtTick := true,
          ctxOk := true, blobOk := true, wsConnectedAtBlob := true }).1.canvas
      = some (640, 480)) := by
  constructor
  · exact c7_zero_dims_skip_canvas_tracks_source.1
      (FrameSvc.initCapture FrameSvc.init)
      { videoWidth := 0, videoHeight := 480, wsConnectedAtTick := true,
        ctxOk := true, blobOk := true, wsConnectedAtBlob := true }
      (Or.inl rfl)
  · have h := c7_zero_dims_skip_canvas_tracks_source.2
      (FrameSvc.initCapture FrameSvc.init)
      { videoWidth := 640, videoHeight := 480, wsConnectedAtTick := true,
        ctxOk := true, blobOk := true, wsConnectedAtBlob := true }
      (captureAndSendFrame (FrameSvc.initCapture FrameSvc.init)
        { videoWidth := 640, videoHeight := 480, wsConnectedAtTick := true,
          ctxOk := true, blobOk := true, wsConnectedAtBlob := true }).1
      (640, 480) (by decide)
    exact ⟨by decide, h.2⟩

/-- C8: the frame sequence counter.  Each timer period increments
`frameCount` by exactly one when a chunk is emitted and leaves it
unchanged otherwise (so it is monotone within a session); `stop()` does
not touch the counter; and the Sidebar restart sequence — `stop()`
followed by `handleStartStreaming`'s initialize / resetFrameCount / start
— always yields a running service whose counter is zero before any new
chunk is emitted. -/
theorem c8_sequence_counter_resets_only_on_restart :
    (∀ (s : FrameSvc) (env : TickEnv),
      (captureAndSendFrame s env).1.frameCount =
        s.frameCount +
          (if (captureAndSendFrame s env).2.isSome then 1 else 0)) ∧
    (∀ s : FrameSvc, (FrameSvc.stop s).frameCount = s.frameCount) ∧
    (∀ (s : FrameSvc) (tid : Nat),
      handleStartStreaming (FrameSvc.stop s) true tid =
        .ok { intervalId := some tid, videoAttached := true,
              wsAttached := true, canvas := some (300, 150),
              frameCount := 0 }) := by
  refine ⟨?_, fun s => rfl, fun s tid => rfl⟩
  intro s env
  unfold captureAndSendFrame
  cases hc : s.canvas with
  | none => rfl
  | some dims =>
      by_cases hg : ¬s.videoAttached ∨ ¬s.wsAttached ∨ ¬env.wsConnectedAtTick
      · rw [if_pos hg]
        rfl
      · rw [if_neg hg]
        by_cases hz : env.videoWidth = 0 ∨ env.videoHeight = 0
        · rw [if_pos hz]
          rfl
        · rw [if_neg hz]
          by_cases hctx : ¬env.ctxOk
          · rw [if_pos hctx]
            rfl
          · rw [if_neg hctx]
            by_cases hb : env.blobOk ∧ env.wsConnectedAtBlob
            · rw [if_pos hb]
              rfl
            · rw [if_neg hb]
              rfl

/-- C9 counterexample: `setupMediaRecorder` with a media stream attached
but NO registered chunk callback succeeds — no configuration error — and
the first data event's chunk is then dropped silently, exactly the
behaviour the claim says the encoder avoids. -/
theorem c9_recorder_starts_without_callback_and_drops :
    setupMediaRecorder
        { hasMediaStream := true, recorders := [], isRecording := false,
          hasDataCallback := false, deliveredChunks := [],
          droppedChunks := [] }
      = .ok { hasMediaStream := true, recorders := [1000],
              isRecording := true, hasDataCallback := false,
              deliveredChunks := [], droppedChunks := [] } ∧
    fireDataAvailable
        { hasMediaStream := true, recorders := [1000], isRecording := true,
          hasDataCallback := false, deliveredChunks := [],
          droppedChunks := [] } 5
      = { hasMediaStream := true, recorders := [1000], isRecording := true,
          hasDataCallback := false, deliveredChunks := [],
          droppedChunks := [5] } := by
  constructor
  · rfl
  · rfl

/-- C9 amended: `FrameCaptureService.start` is idempotent — while a timer
is running a duplicate call returns unchanged, creating no second timer —
and it throws its configuration error whenever the video element or the
WebSocket service is missing or the service is not connected.  The audio
`setupMediaRecorder`, however, throws only when the media stream is
missing; it succeeds regardless of whether a chunk callback is
registered, and data chunks arriving while no callback is registered are
silently dropped. -/
theorem c9_amended_start_prerequisites :
    (∀ (s : FrameSvc) (conn : Bool) (tid i : Nat),
      s.intervalId = some i → FrameSvc.start s conn tid = .ok s) ∧
    (∀ (s : FrameSvc) (conn : Bool) (tid : Nat),
      s.intervalId = none →
      ¬s.videoAttached ∨ ¬s.wsAttached ∨ ¬conn →
      FrameSvc.start s conn tid =
        .error "Video element and WebSocket service must be initialized and connected") ∧
    (∀ s : RecState, s.hasMediaStream = false →
      setupMediaRecorder s = .error "No media stream available") ∧
    (∀ s : RecState, s.hasMediaStream = true →
      setupMediaRecorder s =
        .ok { s with
              recorders := s.recorders ++ [1000]
              isRecording := true }) ∧
    (∀ (s : RecState) (size : Nat), s.hasDataCallback = false →
      fireDataAvailable s size =
        { s with droppedChunks := s.droppedChunks ++ [size] }) := by
  refine ⟨?_, ?_, ?_, ?_, ?_⟩
  · intro s conn tid i h
    unfold FrameSvc.start
    rw [h]
  · intro s conn tid h1 h2
    unfold FrameSvc.start
    rw [h1]
    dsimp only
    rw [if_pos h2]
  · intro s h
    unfold setupMediaRecorder
    rw [h]
    rfl
  · intro s h
    unfold setupMediaRecorder
    rw [h]
    rfl
  · intro s size h
    unfold fireDataAvailable
    rw [h]
    have : ¬(0 < size ∧ false = true) := by
      intro hcontra
      cases hcontra.2
    rw [if_neg this]

/-- C9 witness: concrete instances — a running capture service ignores a
duplicate `start`, a fresh one with no video element throws the
configuration error, a recorder with no stream throws, and one with a
stream but no callback succeeds. -/
theorem c9_amended_start_prerequisites_witness :
    FrameSvc.start
        { intervalId := some 8, videoAttached := true, wsAttached := true,
          canvas := some (300, 150), frameCount := 4 } true 9
      = .ok { intervalId := some 8, videoAttached := true,
              wsAttached := true, canvas := some (300, 150),
              frameCount := 4 } ∧
    FrameSvc.start FrameSvc.init true 1
      = .error "Video element and WebSocket service must be initialized and connected" ∧
    setupMediaRecorder
        { hasMediaStream := false, recorders := [], isRecording := false,
          hasDataCallback := true, deliveredChunks := [],
          droppedChunks := [] }
      = .error "No media stream available" := by
  refine ⟨?_, ?_, ?_⟩
  · exact c9_amended_start_prerequisites.1
      { intervalId := some 8, videoAttached := true, wsAttached := true,
        canvas := some (300, 150), frameCount := 4 } true 9 8 rfl
  · exact c9_amended_start_prerequisites.2.1 FrameSvc.init true 1 rfl
      (Or.inl (by decide))
  · exact c9_amended_start_prerequisites.2.2.1
      { hasMediaStream := false, recorders := [], isRecording := false,
        hasDataCallback := true, deliveredChunks := [],
        droppedChunks := [] } rfl

/-- C10: `||`-defaulting in the `AudioWebSocketService` constructor.  A
configuration carrying the falsy values `reconnectAttempts = 0`,
`reconnectDelay = 0` and `url = ""` produces exactly the same service as
the empty configuration: 3 attempts, 2000 ms delay, the default localhost
URL.  Any configuration with `reconnectAttempts = 0` gets 3, so a caller
cannot disable automatic reconnection: on the service built from
`reconnectAttempts = 0`, an unexpected close still schedules a
reconnect. -/
theorem c10_falsy_config_replaced_by_defaults :
    mkAudioSvc { url := some "", reconnectAttempts := some 0,
                 reconnectDelay := some 0 }
      = mkAudioSvc {} ∧
    (mkAudioSvc {}).reconnectAttempts = 3 ∧
    (mkAudioSvc {}).reconnectDelay = 2000 ∧
    (mkAudioSvc {}).url = "ws://localhost:8000/api/v1/audio-stream" ∧
    (∀ cfg : AudioWebSocketConfig, cfg.reconnectAttempts = some 0 →
      (mkAudioSvc cfg).reconnectAttempts = 3) ∧
    (fireClose (fireOpen (audioConnect (AudioWorld.init
        { reconnectAttempts := some 0 })) 0) 0).scheduled = [2000] := by
  refine ⟨by decide, rfl, rfl, rfl, ?_, by decide⟩
  intro cfg h
  unfold mkAudioSvc jsOrNat
  rw [h]
  rfl

/-- C10 witness: the defaulting law applied at the all-falsy concrete
configuration. -/
theorem c10_falsy_config_replaced_by_defaults_witness :
    (mkAudioSvc { url := some "", reconnectAttempts := some 0,
                  reconnectDelay := some 0 }).reconnectAttempts = 3 := by
  exact c10_falsy_config_replaced_by_defaults.2.2.2.2.1
    { url := some "", reconnectAttempts := some 0, reconnectDelay := some 0 }
    rfl
